import Mathlib

/-!
Shallow embedding of the Guessipedia coordinate logic (src/coordinates.py)
and the game loop scoring/winner logic (src/main.py), with theorems settling
the specification claims about them.

Python strings are embedded as `List Char` (so that the source's negative
indexing, slicing and prepending are ordinary list operations), Python floats
as `ℚ`, Python's tuple-or-int returns as inductive types, and raising code as
`Except PyError`.
-/

namespace Guessipedia

/-- Equality of `Except` results is decidable when both components are;
used to evaluate the embedded functions on concrete inputs. -/
instance {ε α : Type _} [DecidableEq ε] [DecidableEq α] : DecidableEq (Except ε α) := fun x y =>
  match x, y with
  | .ok a, .ok b => decidable_of_iff (a = b) (by simp)
  | .error a, .error b => decidable_of_iff (a = b) (by simp)
  | .ok _, .error _ => .isFalse (by simp)
  | .error _, .ok _ => .isFalse (by simp)

/-- The Python runtime errors reachable in the embedded code paths:
IndexError from `lat[-1]` on an empty string, TypeError from unpacking a
non-tuple into three variables. -/
inductive PyError where
  | indexError
  | typeError
deriving DecidableEq, Repr

/-- Value of a digit string, accumulated left to right (digit `c` contributes
`c.toNat - 48`). -/
def digitsToNat (l : List Char) : Nat :=
  l.foldl (fun a c => 10 * a + (c.toNat - 48)) 0

/-- The character is not the decimal dot. -/
def notDot (c : Char) : Bool :=
  c ≠ '.'

/-- Python `float()` on an unsigned plain decimal numeral: digits, or digits
around a single dot (`"10"`, `"10."`, `".5"`, `"1.25"`). Scientific
notation, whitespace, underscores and inf/nan are outside the model; none
occur in the repository's coordinate data. Anything else (empty, stray
letters, a second dot, an embedded sign) is rejected, as `float()` rejects
it. When the remainder after the integer digits is nonempty its head is the
first dot, and the fractional digits are its tail. -/
def pyFloatOfUnsigned (l : List Char) : Option ℚ :=
  let intPart := l.takeWhile notDot
  let rest := l.dropWhile notDot
  if rest = [] then
    if intPart ≠ [] ∧ intPart.all Char.isDigit then
      some (digitsToNat intPart)
    else none
  else
    let fracPart := rest.tail
    if (intPart ≠ [] ∨ fracPart ≠ []) ∧ intPart.all Char.isDigit
        ∧ fracPart.all Char.isDigit then
      some (mkRat (digitsToNat (intPart ++ fracPart)) (10 ^ fracPart.length))
    else none

/-- Python `float()` on a string: an optional leading sign, then an unsigned
decimal numeral. -/
def pyFloat? (l : List Char) : Option ℚ :=
  match l with
  | '-' :: rest => (pyFloatOfUnsigned rest).map (fun q => -q)
  | '+' :: rest => pyFloatOfUnsigned rest
  | _ => pyFloatOfUnsigned l

/-- A Python value appearing as a coordinate component: an integer, or a
string. (Python floats that reach the parser have already been rendered by
`str()` into decimal strings, which the string case covers.) -/
inductive PyScalar where
  | int (n : ℤ)
  | str (s : List Char)

/-- Python `str()` of a coordinate component. -/
def pyStr : PyScalar → List Char
  | .int n => (toString n).toList
  | .str s => s

/-- The latitude hemisphere branches of `convert_lat_lon_to_float`:
`if lat[-1] == 'S': lat = "-" + lat[:-1]` then `if lat[-1] == 'N': lat = lat[:-1]`.
The caller has already raised IndexError when the list is empty, so the
`getLastD` default is never consulted there. -/
def hemiLat (lat : List Char) : List Char :=
  let l1 := if lat.getLastD '#' = 'S' then '-' :: lat.dropLast else lat
  if l1.getLastD '#' = 'N' then l1.dropLast else l1

/-- The longitude hemisphere branches: `W` prepends a minus sign, `E` is
stripped. -/
def hemiLon (lon : List Char) : List Char :=
  let l1 := if lon.getLastD '#' = 'W' then '-' :: lon.dropLast else lon
  if l1.getLastD '#' = 'E' then l1.dropLast else l1

/-- Embedding of `coordinates.convert_lat_lon_to_float` on the `str()` forms of the two
components. `lat[-1]` (and later `lon[-1]`) on an empty string raises
IndexError: the indexing happens before the `try`, whose `except` only
catches the ValueError of `float()`. A parse failure or an out-of-range
value yields `.ok none`, the `(None, None)` sentinel. -/
def convert_core (lat lon : List Char) : Except PyError (Option (ℚ × ℚ)) :=
  if lat = [] then .error .indexError
  else if lon = [] then .error .indexError
  else
    match pyFloat? (hemiLat lat), pyFloat? (hemiLon lon) with
    | some pos_latitude, some pos_longitude =>
      if pos_latitude < -90 ∨ pos_latitude > 90
          ∨ pos_longitude < -180 ∨ pos_longitude > 180 then .ok none
      else .ok (some (pos_latitude, pos_longitude))
    | _, _ => .ok none

/-- Embedding of `coordinates.convert_lat_lon_to_float`:
`lat, lon = str(pos[0]), str(pos[1])`,
then hemisphere handling, `float()`, and the range check. -/
def convert_lat_lon_to_float (pos : PyScalar × PyScalar) :
    Except PyError (Option (ℚ × ℚ)) :=
  convert_core (pyStr pos.1) (pyStr pos.2)

/-- Embedding of `coordinates.which_is_north`: 1 when pos1 is strictly further north, 2
when pos2 is, 0 on equal latitudes; None (`.ok none`) when either input
fails parsing. An IndexError from the parser propagates. -/
def which_is_north (pos1 pos2 : PyScalar × PyScalar) : Except PyError (Option ℕ) :=
  match convert_lat_lon_to_float pos1 with
  | .error e => .error e
  | .ok p1 =>
    match convert_lat_lon_to_float pos2 with
    | .error e => .error e
    | .ok p2 =>
      match p1, p2 with
      | some (la1, _), some (la2, _) =>
        .ok (some (if la1 = la2 then 0 else if la1 > la2 then 1 else 2))
      | _, _ => .ok none

/-- Embedding of `coordinates.which_is_east`: the same shape as `which_is_north`, on the
longitude components. -/
def which_is_east (pos1 pos2 : PyScalar × PyScalar) : Except PyError (Option ℕ) :=
  match convert_lat_lon_to_float pos1 with
  | .error e => .error e
  | .ok p1 =>
    match convert_lat_lon_to_float pos2 with
    | .error e => .error e
    | .ok p2 =>
      match p1, p2 with
      | some (_, lo1), some (_, lo2) =>
        .ok (some (if lo1 = lo2 then 0 else if lo1 > lo2 then 1 else 2))
      | _, _ => .ok none

/-- geopy coerces a `None` coordinate component to 0.0 when building a
`Point` (its constructor runs `float(latitude or 0.0)`); geopy is an external
library, so this coercion is modelled from its behavior, not from src/. -/
def pointOf : Option (ℚ × ℚ) → ℚ × ℚ
  | none => (0, 0)
  | some p => p

/-- The value `compare_distance` returns: the bare int 0 on a tie, the
3-tuple `(tag, distance1, distance2)` otherwise. The `invalid` constructor
is the Invalid/None verdict the specification speaks of; the source never
constructs it — it is present so that claims about it can be stated. -/
inductive DistResult where
  | invalid
  | tie
  | decided (tag : ℕ) (d1 d2 : ℚ)
deriving DecidableEq, Repr

/-- Embedding of `coordinates.compare_distance`, parametrized by the external geodesic
distance function `geo` (geopy's `geodesic(..).kilometers`). The source
converts all three positions but never checks the results for the
`(None, None)` sentinel; the sentinel flows into `geo` through the Point
coercion `pointOf`. -/
def compare_distance (geo : ℚ × ℚ → ℚ × ℚ → ℚ)
    (my_location loc1 loc2 : PyScalar × PyScalar) : Except PyError DistResult :=
  match convert_lat_lon_to_float my_location with
  | .error e => .error e
  | .ok player_location =>
    match convert_lat_lon_to_float loc1 with
    | .error e => .error e
    | .ok location_1 =>
      match convert_lat_lon_to_float loc2 with
      | .error e => .error e
      | .ok location_2 =>
        let distance1 := geo (pointOf player_location) (pointOf location_1)
        let distance2 := geo (pointOf player_location) (pointOf location_2)
        if distance1 = distance2 then .ok .tie
        else if distance1 < distance2 then .ok (.decided 1 distance1 distance2)
        else .ok (.decided 2 distance1 distance2)

/-- A concrete stand-in for the external geodesic distance so that theorems
with hypotheses can be witnessed on concrete inputs (geopy's ellipsoidal
model is not reproducible exactly; every fact proved about the source's
logic is quantified over an arbitrary `geo`, and the stand-in is only used
to instantiate such facts). Squared Euclidean distance in coordinate space,
written over the cross-multiplied numerators so it evaluates by kernel
reduction; it agrees with the real geodesic on the properties the witnesses
use: zero exactly between equal points, strictly larger at the strictly
farther of two points on the same meridian. -/
def geoModel (a b : ℚ × ℚ) : ℚ :=
  let dLat : ℤ := a.1.num * (b.1.den : ℤ) - b.1.num * (a.1.den : ℤ)
  let dLon : ℤ := a.2.num * (b.2.den : ℤ) - b.2.num * (a.2.den : ℤ)
  mkRat (dLat * dLat + dLon * dLon) 1

/-- Embedding of `main.ask_question_about_distance`, reduced to its data flow: unpack the
`compare_distance` result into three variables (`is_closer, distance_1_km,
distance_2_km = compare_distance(...)`) — a tie, being the bare int 0,
cannot be unpacked and raises TypeError — then report the answer correct
when it differs from the nearer tag (the prompt asks which location is
further away). -/
def ask_question_about_distance (geo : ℚ × ℚ → ℚ × ℚ → ℚ)
    (player_location loc1 loc2 : PyScalar × PyScalar) (player_answer : ℕ) :
    Except PyError Bool :=
  match compare_distance geo player_location loc1 loc2 with
  | .error e => .error e
  | .ok (.decided is_closer _ _) => .ok (player_answer != is_closer)
  | .ok _ => .error .typeError

/-- Embedding of the `main.play_one_round` scoring: `10` points when the question function
returned `True`, `0` otherwise. -/
def round_points (round_result : Bool) : ℕ :=
  if round_result then 10 else 0

/-- Embedding of `main.play_one_round` specialized to a distance round (question type 3):
the round's points from the player's answer. -/
def play_one_round_distance (geo : ℚ × ℚ → ℚ × ℚ → ℚ)
    (player_location loc1 loc2 : PyScalar × PyScalar) (player_answer : ℕ) :
    Except PyError ℕ :=
  match ask_question_about_distance geo player_location loc1 loc2 player_answer with
  | .error e => .error e
  | .ok round_result => .ok (round_points round_result)

/-- The announcement `main.play_the_game` prints after the last round:
a single winner, or a draw listing the tied names. -/
inductive Announcement where
  | single (name : String) (points : ℕ)
  | draw (names : List String) (points : ℕ)
deriving DecidableEq, Repr

/-- Python `max(points_list)` (the totals are naturals, so folding from 0
agrees with `max` on every nonempty list). -/
def max_points (points_list : List ℕ) : ℕ :=
  points_list.foldl max 0

/-- Embedding of the winner comprehension of `main.play_the_game`:
`[player_names[i] for i, p in enumerate(points_list) if p == max_points]`. -/
def winning_players (player_names : List String) (points_list : List ℕ) : List String :=
  ((player_names.zip points_list).filter
    (fun np => np.2 == max_points points_list)).map Prod.fst

/-- The per-player totals `points_list` accumulated by the round loop of
`main.play_the_game`: each player's total is the sum of their per-round
points. -/
def player_totals (round_results : List (List Bool)) : List ℕ :=
  round_results.map (fun rs => (rs.map round_points).sum)

/-- Embedding of `main.play_the_game` after all rounds, abstracted over the per-player
round outcomes (question selection and console I/O elided): announce a
single winner when exactly one name holds the maximum, otherwise a draw
over all the tied names. -/
def play_the_game (player_names : List String) (round_results : List (List Bool)) :
    Announcement :=
  let points_list := player_totals round_results
  let mp := max_points points_list
  match winning_players player_names points_list with
  | [w] => .single w mp
  | ws => .draw ws mp

/-- The signed numeral corresponding to a hemisphere-suffixed unsigned
numeral, from the spec's phrase "`parse` is equivalent to `parse` with the
corresponding signed numeral": `S`/`W` negate, `N`/`E` leave the value
unchanged. -/
def signedForm (hemi : Char) (u : List Char) : List Char :=
  if hemi = 'S' ∨ hemi = 'W' then '-' :: u else u

/-- Exchange of the First/Second verdict tags under swapping the two
compared positions; 0 (tie) and any other value are fixed. Used to state
the swap-symmetry claims. -/
def swapTag : ℕ → ℕ
  | 1 => 2
  | 2 => 1
  | n => n

/-- The character is a digit or the decimal dot: the alphabet of an unsigned
decimal numeral. -/
def digitOrDot (c : Char) : Bool :=
  c.isDigit || c = '.'

/-- A nonempty string over the unsigned-numeral alphabet; the form the spec
means by "an unsigned numeral" (its hemisphere-suffix rules quantify over
these). -/
def numeralish (u : List Char) : Prop :=
  u ≠ [] ∧ u.all digitOrDot = true

instance (u : List Char) : Decidable (numeralish u) := by
  unfold numeralish; infer_instance

/-! Helper lemmas shared by the claim theorems. -/

theorem convert_core_ok (lat lon : List Char) (h1 : lat ≠ []) (h2 : lon ≠ []) :
    ∃ r, convert_core lat lon = .ok r := by
  rw [convert_core, if_neg h1, if_neg h2]
  rcases pyFloat? (hemiLat lat) with _ | la <;> rcases pyFloat? (hemiLon lon) with _ | lo <;>
    simp only []
  · exact ⟨none, rfl⟩
  · exact ⟨none, rfl⟩
  · exact ⟨none, rfl⟩
  · split
    · exact ⟨none, rfl⟩
    · exact ⟨some (la, lo), rfl⟩

theorem convert_core_error_eq (lat lon : List Char) (e : PyError)
    (h : convert_core lat lon = .error e) : e = .indexError := by
  by_cases h1 : lat = []
  · rw [convert_core, if_pos h1] at h
    exact (Except.error.inj h).symm
  · by_cases h2 : lon = []
    · rw [convert_core, if_neg h1, if_pos h2] at h
      exact (Except.error.inj h).symm
    · obtain ⟨r, hr⟩ := convert_core_ok lat lon h1 h2
      rw [hr] at h
      exact Except.noConfusion h

theorem getLastD_all (p : Char → Bool) (l : List Char) (hne : l ≠ [])
    (h : l.all p = true) (d : Char) : p (l.getLastD d) = true := by
  induction l generalizing d with
  | nil => exact absurd rfl hne
  | cons a t ih =>
    rw [List.getLastD_cons]
    rcases t with _ | ⟨b, t2⟩
    · simpa using h
    · exact ih (by simp) (by simp_all) a

theorem numeral_getLastD_ne (u : List Char) (hu : numeralish u) (d c : Char)
    (hc : digitOrDot c = false) : u.getLastD d ≠ c := by
  intro h
  have hl := getLastD_all digitOrDot u hu.1 hu.2 d
  rw [h, hc] at hl
  exact Bool.noConfusion hl

theorem hemiLat_of_ne (lat : List Char) (hS : lat.getLastD '#' ≠ 'S')
    (hN : lat.getLastD '#' ≠ 'N') : hemiLat lat = lat := by
  simp only [hemiLat]
  rw [if_neg hS, if_neg hN]

theorem hemiLat_of_S (lat : List Char) (hS : lat.getLastD '#' = 'S')
    (hN : lat.dropLast.getLastD '-' ≠ 'N') : hemiLat lat = '-' :: lat.dropLast := by
  simp only [hemiLat]
  rw [if_pos hS, List.getLastD_cons, if_neg hN]

theorem hemiLat_of_N (lat : List Char) (hS : lat.getLastD '#' ≠ 'S')
    (hN : lat.getLastD '#' = 'N') : hemiLat lat = lat.dropLast := by
  simp only [hemiLat]
  rw [if_neg hS, if_pos hN]

theorem hemiLat_numeral (u : List Char) (hu : numeralish u) : hemiLat u = u :=
  hemiLat_of_ne u (numeral_getLastD_ne u hu '#' 'S' (by decide))
    (numeral_getLastD_ne u hu '#' 'N' (by decide))

theorem hemiLat_cons (s : Char) (u : List Char) (hu : numeralish u) :
    hemiLat (s :: u) = s :: u :=
  hemiLat_of_ne (s :: u)
    (by rw [List.getLastD_cons]; exact numeral_getLastD_ne u hu s 'S' (by decide))
    (by rw [List.getLastD_cons]; exact numeral_getLastD_ne u hu s 'N' (by decide))

theorem hemiLat_concat_S (u : List Char) (hu : numeralish u) :
    hemiLat (u ++ ['S']) = '-' :: u := by
  have h := hemiLat_of_S (u ++ ['S']) (by rw [List.getLastD_concat])
    (by rw [List.dropLast_concat]; exact numeral_getLastD_ne u hu '-' 'N' (by decide))
  rwa [List.dropLast_concat] at h

theorem hemiLat_concat_N (u : List Char) (_hu : numeralish u) :
    hemiLat (u ++ ['N']) = u := by
  have h := hemiLat_of_N (u ++ ['N']) (by rw [List.getLastD_concat]; decide)
    (by rw [List.getLastD_concat])
  rwa [List.dropLast_concat] at h

theorem hemiLon_of_ne (lon : List Char) (hW : lon.getLastD '#' ≠ 'W')
    (hE : lon.getLastD '#' ≠ 'E') : hemiLon lon = lon := by
  simp only [hemiLon]
  rw [if_neg hW, if_neg hE]

theorem hemiLon_of_W (lon : List Char) (hW : lon.getLastD '#' = 'W')
    (hE : lon.dropLast.getLastD '-' ≠ 'E') : hemiLon lon = '-' :: lon.dropLast := by
  simp only [hemiLon]
  rw [if_pos hW, List.getLastD_cons, if_neg hE]

theorem hemiLon_of_E (lon : List Char) (hW : lon.getLastD '#' ≠ 'W')
    (hE : lon.getLastD '#' = 'E') : hemiLon lon = lon.dropLast := by
  simp only [hemiLon]
  rw [if_neg hW, if_pos hE]

theorem hemiLon_numeral (v : List Char) (hv : numeralish v) : hemiLon v = v :=
  hemiLon_of_ne v (numeral_getLastD_ne v hv '#' 'W' (by decide))
    (numeral_getLastD_ne v hv '#' 'E' (by decide))

theorem hemiLon_cons (s : Char) (v : List Char) (hv : numeralish v) :
    hemiLon (s :: v) = s :: v :=
  hemiLon_of_ne (s :: v)
    (by rw [List.getLastD_cons]; exact numeral_getLastD_ne v hv s 'W' (by decide))
    (by rw [List.getLastD_cons]; exact numeral_getLastD_ne v hv s 'E' (by decide))

theorem hemiLon_concat_W (v : List Char) (hv : numeralish v) :
    hemiLon (v ++ ['W']) = '-' :: v := by
  have h := hemiLon_of_W (v ++ ['W']) (by rw [List.getLastD_concat])
    (by rw [List.dropLast_concat]; exact numeral_getLastD_ne v hv '-' 'E' (by decide))
  rwa [List.dropLast_concat] at h

theorem hemiLon_concat_E (v : List Char) (_hv : numeralish v) :
    hemiLon (v ++ ['E']) = v := by
  have h := hemiLon_of_E (v ++ ['E']) (by rw [List.getLastD_concat]; decide)
    (by rw [List.getLastD_concat])
  rwa [List.dropLast_concat] at h

theorem convert_core_congr (lat1 lat2 lon1 lon2 : List Char)
    (h1 : lat1 ≠ []) (h2 : lat2 ≠ []) (h3 : lon1 ≠ []) (h4 : lon2 ≠ [])
    (hla : hemiLat lat1 = hemiLat lat2) (hlo : hemiLon lon1 = hemiLon lon2) :
    convert_core lat1 lon1 = convert_core lat2 lon2 := by
  rw [convert_core, convert_core, if_neg h1, if_neg h2, if_neg h3, if_neg h4, hla, hlo]

theorem pyFloatOfUnsigned_cons_sign (s : Char) (u : List Char)
    (hd : s.isDigit = false) (hdot : notDot s = true) :
    pyFloatOfUnsigned (s :: u) = none := by
  by_cases hr : u.dropWhile notDot = [] <;>
    simp [pyFloatOfUnsigned, List.takeWhile_cons, List.dropWhile_cons, hdot, hr,
      List.all_cons, hd]

theorem le_foldl_max (l : List ℕ) (a : ℕ) : a ≤ l.foldl max a := by
  induction l generalizing a with
  | nil => exact le_refl a
  | cons x t ih =>
    rw [List.foldl_cons]
    exact le_trans (le_max_left a x) (ih (max a x))

theorem mem_le_foldl_max (l : List ℕ) : ∀ (a x : ℕ), x ∈ l → x ≤ l.foldl max a := by
  induction l with
  | nil => intro a x hx; cases hx
  | cons y t ih =>
    intro a x hx
    rw [List.foldl_cons]
    rcases List.mem_cons.mp hx with h | h
    · subst h
      exact le_trans (le_max_right a x) (le_foldl_max t (max a x))
    · exact ih (max a y) x h

theorem foldl_max_mem (l : List ℕ) : ∀ a, l.foldl max a = a ∨ l.foldl max a ∈ l := by
  induction l with
  | nil => intro a; exact Or.inl rfl
  | cons y t ih =>
    intro a
    rw [List.foldl_cons]
    rcases ih (max a y) with h | h
    · rcases max_choice a y with hm | hm
      · exact Or.inl (by rw [h, hm])
      · exact Or.inr (by rw [h, hm]; exact List.mem_cons_self y t)
    · exact Or.inr (List.mem_cons_of_mem y h)

theorem max_points_le (l : List ℕ) (x : ℕ) (hx : x ∈ l) : x ≤ max_points l :=
  mem_le_foldl_max l 0 x hx

theorem max_points_mem (l : List ℕ) (hne : l ≠ []) : max_points l ∈ l := by
  rcases foldl_max_mem l 0 with h | h
  · rcases l with _ | ⟨y, t⟩
    · exact absurd rfl hne
    · have hy : y ≤ max_points (y :: t) :=
        max_points_le (y :: t) y (List.mem_cons_self y t)
      rw [max_points] at hy ⊢
      rw [h] at hy
      rw [h, ← Nat.le_zero.mp hy]
      exact List.mem_cons_self y t
  · exact h

theorem compare_distance_cases (geo : ℚ × ℚ → ℚ × ℚ → ℚ)
    (my loc1 loc2 : PyScalar × PyScalar) (r : DistResult)
    (h : compare_distance geo my loc1 loc2 = .ok r) :
    r = .tie ∨ (∃ d1 d2 : ℚ, r = .decided 1 d1 d2) ∨ (∃ d1 d2 : ℚ, r = .decided 2 d1 d2) := by
  unfold compare_distance at h
  rcases hm : convert_lat_lon_to_float my with em | pm <;> rw [hm] at h
  · exact Except.noConfusion h
  rcases h1 : convert_lat_lon_to_float loc1 with e1 | p1 <;> rw [h1] at h
  · exact Except.noConfusion h
  rcases h2 : convert_lat_lon_to_float loc2 with e2 | p2 <;> rw [h2] at h
  · exact Except.noConfusion h
  dsimp only [] at h
  split at h
  · exact Or.inl (Except.ok.inj h).symm
  split at h
  · exact Or.inr (Or.inl ⟨_, _, (Except.ok.inj h).symm⟩)
  · exact Or.inr (Or.inr ⟨_, _, (Except.ok.inj h).symm⟩)

theorem compare_distance_ok_ne_invalid (geo : ℚ × ℚ → ℚ × ℚ → ℚ)
    (my loc1 loc2 : PyScalar × PyScalar) (r : DistResult)
    (h : compare_distance geo my loc1 loc2 = .ok r) : r ≠ .invalid := by
  rcases compare_distance_cases geo my loc1 loc2 r h with h1 | ⟨a, b, h1⟩ | ⟨a, b, h1⟩ <;>
    rw [h1] <;> intro hc <;> exact DistResult.noConfusion hc

theorem compare_distance_decided_tag (geo : ℚ × ℚ → ℚ × ℚ → ℚ)
    (my loc1 loc2 : PyScalar × PyScalar) (t : ℕ) (d1 d2 : ℚ)
    (h : compare_distance geo my loc1 loc2 = .ok (.decided t d1 d2)) : t = 1 ∨ t = 2 := by
  rcases compare_distance_cases geo my loc1 loc2 _ h with h1 | ⟨a, b, h1⟩ | ⟨a, b, h1⟩
  · exact DistResult.noConfusion h1
  · injection h1 with ht _ _
    exact Or.inl ht
  · injection h1 with ht _ _
    exact Or.inr ht

theorem convert_error_eq (pos : PyScalar × PyScalar) (e : PyError)
    (h : convert_lat_lon_to_float pos = .error e) : e = .indexError :=
  convert_core_error_eq _ _ e h

theorem orderTag_swap (x y : ℚ) :
    (if y = x then (0 : ℕ) else if y > x then 1 else 2)
      = swapTag (if x = y then 0 else if x > y then 1 else 2) := by
  rcases lt_trichotomy x y with h | h | h
  · rw [if_neg (ne_of_gt h), if_pos h, if_neg (ne_of_lt h), if_neg (not_lt.mpr h.le)]
    rfl
  · subst h
    rw [if_pos rfl]
    rfl
  · rw [if_neg (ne_of_lt h), if_neg (not_lt.mpr h.le), if_neg (ne_of_gt h), if_pos h]
    rfl

/-! The claim theorems. -/

/-- C4: the claim says `convert_lat_lon_to_float` is total and never raises,
returning the `(None, None)` sentinel on any malformed component, for every
input pair including empty strings. The first conjunct shows the code
violates this: on an empty string component the indexing `lat[-1]` raises
IndexError (the try/except around `float()` does not cover it). The second
conjunct proves the totality the claim intends on every input whose string
forms are nonempty. -/
theorem C4_parse_totality :
    convert_lat_lon_to_float (.str [], .str "10".toList) = .error .indexError ∧
    ∀ pos : PyScalar × PyScalar, pyStr pos.1 ≠ [] → pyStr pos.2 ≠ [] →
      ∃ r, convert_lat_lon_to_float pos = .ok r := by
  refine ⟨by decide, ?_⟩
  intro pos h1 h2
  exact convert_core_ok _ _ h1 h2

theorem C4_parse_totality_witness :
    ∃ r, convert_lat_lon_to_float (.str "x".toList, .str "0".toList) = .ok r :=
  C4_parse_totality.2 (.str "x".toList, .str "0".toList) (by decide) (by decide)

/-- C7: whenever the parsed latitude magnitude exceeds 90 or the parsed
longitude magnitude exceeds 180 (parsed value means the `float()` value of
the component after hemisphere handling, so sign and suffix are both
covered), `convert_lat_lon_to_float` returns the `(None, None)` sentinel. -/
theorem C7_out_of_range_invalid (lat lon : List Char) (h1 : lat ≠ []) (h2 : lon ≠ [])
    (hrange : (∃ la, pyFloat? (hemiLat lat) = some la ∧ (la < -90 ∨ 90 < la)) ∨
      (∃ lo, pyFloat? (hemiLon lon) = some lo ∧ (lo < -180 ∨ 180 < lo))) :
    convert_core lat lon = .ok none := by
  rw [convert_core, if_neg h1, if_neg h2]
  rcases hla : pyFloat? (hemiLat lat) with _ | la <;>
    rcases hlo : pyFloat? (hemiLon lon) with _ | lo
  · rfl
  · rfl
  · rfl
  · have hcond : la < -90 ∨ la > 90 ∨ lo < -180 ∨ lo > 180 := by
      rcases hrange with ⟨la2, hla2, hr⟩ | ⟨lo2, hlo2, hr⟩
      · rw [hla] at hla2
        injection hla2 with he
        subst he
        rcases hr with hr | hr
        · exact Or.inl hr
        · exact Or.inr (Or.inl hr)
      · rw [hlo] at hlo2
        injection hlo2 with he
        subst he
        rcases hr with hr | hr
        · exact Or.inr (Or.inr (Or.inl hr))
        · exact Or.inr (Or.inr (Or.inr hr))
    show (if la < -90 ∨ la > 90 ∨ lo < -180 ∨ lo > 180 then
        (Except.ok none : Except PyError (Option (ℚ × ℚ)))
      else Except.ok (some (la, lo))) = Except.ok none
    rw [if_pos hcond]

theorem C7_out_of_range_invalid_witness :
    convert_core "181".toList "0".toList = .ok none :=
  C7_out_of_range_invalid "181".toList "0".toList (by decide) (by decide)
    (Or.inl ⟨181, by decide, Or.inr (by decide)⟩)

/-- C5 counterexample: the claim says a leading sign combined with any
trailing hemisphere letter (N, S, E or W) is rejected with the
`(None, None)` sentinel. But `"-10N"` — a leading minus sign combined with
the hemisphere letter N — parses successfully to latitude -10.0: the N
branch merely strips the suffix and never inspects the sign. -/
theorem C5_counterexample :
    convert_core "-10N".toList "10E".toList = .ok (some (-10, 10)) := by
  decide

/-- C5 (amended): a leading sign is rejected only in combination with the
sign-flipping suffixes S and W, where the prepended minus sign produces a
malformed numeral that fails `float()`; with the suffixes N and E the letter
is merely stripped, so a signed numeral parses exactly as it would without
the suffix. -/
theorem C5_sign_with_hemisphere (s : Char) (u v : List Char)
    (hs : s = '-' ∨ s = '+') (hu : numeralish u) (hv : v ≠ []) :
    convert_core ((s :: u) ++ ['S']) v = .ok none ∧
    convert_core v ((s :: u) ++ ['W']) = .ok none ∧
    convert_core ((s :: u) ++ ['N']) v = convert_core (s :: u) v ∧
    convert_core v ((s :: u) ++ ['E']) = convert_core v (s :: u) := by
  have hsd : s.isDigit = false := by rcases hs with h | h <;> rw [h] <;> decide
  have hsnd : notDot s = true := by rcases hs with h | h <;> rw [h] <;> decide
  have hLatS : hemiLat ((s :: u) ++ ['S']) = '-' :: s :: u := by
    have h := hemiLat_of_S ((s :: u) ++ ['S']) (by rw [List.getLastD_concat])
      (by rw [List.dropLast_concat, List.getLastD_cons]
          exact numeral_getLastD_ne u hu s 'N' (by decide))
    rwa [List.dropLast_concat] at h
  have hLonW : hemiLon ((s :: u) ++ ['W']) = '-' :: s :: u := by
    have h := hemiLon_of_W ((s :: u) ++ ['W']) (by rw [List.getLastD_concat])
      (by rw [List.dropLast_concat, List.getLastD_cons]
          exact numeral_getLastD_ne u hu s 'E' (by decide))
    rwa [List.dropLast_concat] at h
  have hfail : pyFloat? ('-' :: s :: u) = none := by
    show (pyFloatOfUnsigned (s :: u)).map _ = none
    rw [pyFloatOfUnsigned_cons_sign s u hsd hsnd]
    rfl
  refine ⟨?_, ?_, ?_, ?_⟩
  · rw [convert_core, if_neg (by simp), if_neg hv, hLatS, hfail]
  · rw [convert_core, if_neg hv, if_neg (by simp), hLonW, hfail]
    rcases pyFloat? (hemiLat v) with _ | la <;> rfl
  · refine convert_core_congr _ _ _ _ (by simp) (by simp) hv hv ?_ rfl
    have hN : hemiLat ((s :: u) ++ ['N']) = s :: u := by
      have h := hemiLat_of_N ((s :: u) ++ ['N'])
        (by rw [List.getLastD_concat]; decide) (by rw [List.getLastD_concat])
      rwa [List.dropLast_concat] at h
    rw [hN, hemiLat_cons s u hu]
  · refine convert_core_congr _ _ _ _ hv hv (by simp) (by simp) rfl ?_
    have hE : hemiLon ((s :: u) ++ ['E']) = s :: u := by
      have h := hemiLon_of_E ((s :: u) ++ ['E'])
        (by rw [List.getLastD_concat]; decide) (by rw [List.getLastD_concat])
      rwa [List.dropLast_concat] at h
    rw [hE, hemiLon_cons s u hu]

theorem C5_sign_with_hemisphere_witness :
    convert_core (('-' :: "10".toList) ++ ['S']) "0".toList = .ok none :=
  (C5_sign_with_hemisphere '-' "10".toList "0".toList (Or.inl rfl)
    (by decide) (by decide)).1

/-- C1: the claim says `compare_distance` validates its three positions and
returns Invalid/None when any of them fails parsing. The code converts
but never checks: the `(None, None)` sentinel flows into the geodesic
library, which coerces it to the point (0, 0), and a numeric verdict comes
back. Here: the pair ("x", "0") fails parsing, yet `compare_distance`
reports location 1 (the unparsable one, coerced to (0,0) = the reference)
as strictly nearer, with distances attached. The last conjunct shows the
failure is structural: for every geodesic function and all inputs, a
non-raising run never produces the Invalid verdict the claim requires. -/
theorem C1_compare_distance_unvalidated :
    convert_lat_lon_to_float (.str "x".toList, .str "0".toList) = .ok none ∧
    compare_distance geoModel (.str "0".toList, .str "0".toList)
        (.str "x".toList, .str "0".toList) (.str "10".toList, .str "10".toList)
      = .ok (.decided 1 0 200) ∧
    ∀ (geo : ℚ × ℚ → ℚ × ℚ → ℚ) (my loc1 loc2 : PyScalar × PyScalar) (r : DistResult),
      compare_distance geo my loc1 loc2 = .ok r → r ≠ .invalid :=
  ⟨by decide, by decide, compare_distance_ok_ne_invalid⟩

theorem C1_compare_distance_unvalidated_witness :
    DistResult.decided 1 0 200 ≠ DistResult.invalid :=
  C1_compare_distance_unvalidated.2.2 geoModel (.str "0".toList, .str "0".toList)
    (.str "x".toList, .str "0".toList) (.str "10".toList, .str "10".toList)
    (.decided 1 0 200) C1_compare_distance_unvalidated.2.1

/-- C3: the claim says a distance round with a Tie verdict completes
normally with neither answer scoring. In the code, a tie makes
`compare_distance` return the bare int 0, and `ask_question_about_distance`
unpacks the result into three variables, which raises TypeError: the round
aborts with an exception for either answer instead of completing with 0
points. (Reference location (0,0); both candidate locations (10,10), so the
two distances are equal.) -/
theorem C3_tie_round_raises :
    compare_distance geoModel (.str "0".toList, .str "0".toList)
        (.str "10".toList, .str "10".toList) (.str "10".toList, .str "10".toList)
      = .ok .tie ∧
    play_one_round_distance geoModel (.str "0".toList, .str "0".toList)
        (.str "10".toList, .str "10".toList) (.str "10".toList, .str "10".toList) 1
      = .error .typeError ∧
    play_one_round_distance geoModel (.str "0".toList, .str "0".toList)
        (.str "10".toList, .str "10".toList) (.str "10".toList, .str "10".toList) 2
      = .error .typeError :=
  ⟨by decide, by decide, by decide⟩

/-- C6: parsing an unsigned numeral with a hemisphere suffix is equivalent
to parsing the corresponding signed numeral (`S`/`W` negate, `N`/`E` leave
the value unchanged), and in particular
`parse(("10S","10E")) == parse(-10, 10) == (-10.0, 10.0)`. -/
theorem C6_suffix_signed_equiv (u v : List Char) (hLat hLon : Char)
    (h1 : hLat = 'S' ∨ hLat = 'N') (h2 : hLon = 'E' ∨ hLon = 'W')
    (hu : numeralish u) (hv : numeralish v) :
    convert_core (u ++ [hLat]) (v ++ [hLon])
      = convert_core (signedForm hLat u) (signedForm hLon v) ∧
    convert_lat_lon_to_float (.str "10S".toList, .str "10E".toList)
      = convert_lat_lon_to_float (.int (-10), .int 10) ∧
    convert_lat_lon_to_float (.int (-10), .int 10) = .ok (some (-10, 10)) := by
  refine ⟨?_, by decide, by decide⟩
  have hsfLat : signedForm hLat u ≠ [] := by
    rcases h1 with h | h <;> rw [h]
    · simp [signedForm]
    · simpa [signedForm] using hu.1
  have hsfLon : signedForm hLon v ≠ [] := by
    rcases h2 with h | h <;> rw [h]
    · simpa [signedForm] using hv.1
    · simp [signedForm]
  refine convert_core_congr _ _ _ _ (by simp) hsfLat (by simp) hsfLon ?_ ?_
  · rcases h1 with h | h <;> rw [h]
    · rw [hemiLat_concat_S u hu,
        show signedForm 'S' u = '-' :: u from by simp [signedForm],
        hemiLat_cons '-' u hu]
    · rw [hemiLat_concat_N u hu,
        show signedForm 'N' u = u from by simp [signedForm],
        hemiLat_numeral u hu]
  · rcases h2 with h | h <;> rw [h]
    · rw [hemiLon_concat_E v hv,
        show signedForm 'E' v = v from by simp [signedForm],
        hemiLon_numeral v hv]
    · rw [hemiLon_concat_W v hv,
        show signedForm 'W' v = '-' :: v from by simp [signedForm],
        hemiLon_cons '-' v hv]

theorem C6_suffix_signed_equiv_witness :
    convert_core ("10".toList ++ ['S']) ("10".toList ++ ['E'])
      = convert_core (signedForm 'S' "10".toList) (signedForm 'E' "10".toList) :=
  (C6_suffix_signed_equiv "10".toList "10".toList 'S' 'E' (Or.inl rfl) (Or.inl rfl)
    (by decide) (by decide)).1

/-- C8: `which_is_north` and `which_is_east` are swap-symmetric: exchanging
the two positions exchanges the verdicts 1 and 2, fixes the tie verdict 0,
fixes the Invalid verdict None, and raises the same error when one side
raises. -/
theorem C8_swap_symmetry (pos1 pos2 : PyScalar × PyScalar) :
    which_is_north pos2 pos1 = (which_is_north pos1 pos2).map (Option.map swapTag) ∧
    which_is_east pos2 pos1 = (which_is_east pos1 pos2).map (Option.map swapTag) := by
  constructor
  · simp only [which_is_north]
    rcases hc1 : convert_lat_lon_to_float pos1 with e1 | p1 <;>
      rcases hc2 : convert_lat_lon_to_float pos2 with e2 | p2
    · rw [convert_error_eq pos1 e1 hc1, convert_error_eq pos2 e2 hc2]
      rfl
    · rfl
    · rfl
    · rcases p1 with _ | ⟨la1, lo1⟩ <;> rcases p2 with _ | ⟨la2, lo2⟩
      · rfl
      · rfl
      · rfl
      · show Except.ok (some (if la2 = la1 then (0 : ℕ) else if la2 > la1 then 1 else 2))
          = Except.ok (some (swapTag (if la1 = la2 then 0 else if la1 > la2 then 1 else 2)))
        rw [orderTag_swap la1 la2]
  · simp only [which_is_east]
    rcases hc1 : convert_lat_lon_to_float pos1 with e1 | p1 <;>
      rcases hc2 : convert_lat_lon_to_float pos2 with e2 | p2
    · rw [convert_error_eq pos1 e1 hc1, convert_error_eq pos2 e2 hc2]
      rfl
    · rfl
    · rfl
    · rcases p1 with _ | ⟨la1, lo1⟩ <;> rcases p2 with _ | ⟨la2, lo2⟩
      · rfl
      · rfl
      · rfl
      · show Except.ok (some (if lo2 = lo1 then (0 : ℕ) else if lo2 > lo1 then 1 else 2))
          = Except.ok (some (swapTag (if lo1 = lo2 then 0 else if lo1 > lo2 then 1 else 2)))
        rw [orderTag_swap lo1 lo2]

/-- C2: in a distance round with a decided verdict `(tag, d1, d2)` and a
player answer in {1, 2}, the round scores the fixed 10 points exactly when
the player's implied choice of nearer location matches the comparator's
tag, and 0 points otherwise. The prompt asks which location is further
away, so the answer designates the further location and the implied nearer
choice is the other option, `3 - answer`; the code's test
`player_answer != is_closer` is exactly that condition. -/
theorem C2_distance_scoring (geo : ℚ × ℚ → ℚ × ℚ → ℚ)
    (pl l1 l2 : PyScalar × PyScalar) (tag : ℕ) (d1 d2 : ℚ) (answer : ℕ)
    (hv : compare_distance geo pl l1 l2 = .ok (.decided tag d1 d2))
    (ha : answer = 1 ∨ answer = 2) :
    (play_one_round_distance geo pl l1 l2 answer = .ok 10 ↔ 3 - answer = tag) ∧
    (play_one_round_distance geo pl l1 l2 answer = .ok 0 ↔ ¬(3 - answer = tag)) := by
  have htag := compare_distance_decided_tag geo pl l1 l2 tag d1 d2 hv
  have hask : ask_question_about_distance geo pl l1 l2 answer = .ok (answer != tag) := by
    rw [ask_question_about_distance, hv]
  have hplay : play_one_round_distance geo pl l1 l2 answer
      = .ok (round_points (answer != tag)) := by
    rw [play_one_round_distance, hask]
  rw [hplay]
  rcases ha with h | h <;> rcases htag with ht | ht <;> subst h <;> subst ht <;> decide

theorem C2_distance_scoring_witness :
    play_one_round_distance geoModel (.str "0".toList, .str "0".toList)
      (.str "0".toList, .str "10".toList) (.str "10".toList, .str "10".toList) 2
      = .ok 10 :=
  (C2_distance_scoring geoModel (.str "0".toList, .str "0".toList)
    (.str "0".toList, .str "10".toList) (.str "10".toList, .str "10".toList)
    1 100 200 2 (by decide) (Or.inr rfl)).1.mpr (by decide)

/-- C9: after all rounds, `play_the_game` declares exactly the players whose
total equals the maximum: the maximum is an upper bound and is attained,
every index holding the maximum contributes its name to the winner list,
every listed name is the name of an index holding the maximum, and the
announcement is a single-winner announcement precisely for a singleton
winner list, a draw listing all tied names otherwise. -/
theorem C9_winner_declaration (names : List String) (results : List (List Bool))
    (_hlen : names.length = (player_totals results).length)
    (hne : player_totals results ≠ []) :
    (∀ p ∈ player_totals results, p ≤ max_points (player_totals results)) ∧
    max_points (player_totals results) ∈ player_totals results ∧
    (∀ i (hi : i < (player_totals results).length) (hi2 : i < names.length),
      (player_totals results)[i] = max_points (player_totals results) →
        names[i] ∈ winning_players names (player_totals results)) ∧
    (∀ n ∈ winning_players names (player_totals results),
      ∃ i, ∃ hi : i < names.length, ∃ hip : i < (player_totals results).length,
        names[i] = n ∧
        (player_totals results)[i] = max_points (player_totals results)) ∧
    (∀ w, winning_players names (player_totals results) = [w] →
      play_the_game names results = .single w (max_points (player_totals results))) ∧
    ((winning_players names (player_totals results)).length ≠ 1 →
      play_the_game names results
        = .draw (winning_players names (player_totals results))
            (max_points (player_totals results))) := by
  refine ⟨fun p hp => max_points_le _ p hp, max_points_mem _ hne, ?_, ?_, ?_, ?_⟩
  · intro i hi hi2 hmax
    have hz : i < (names.zip (player_totals results)).length := by
      rw [List.length_zip]
      exact lt_min_iff.mpr ⟨hi2, hi⟩
    rw [winning_players]
    refine List.mem_map.mpr ⟨(names.zip (player_totals results))[i], ?_, ?_⟩
    · refine List.mem_filter.mpr ⟨List.getElem_mem hz, ?_⟩
      have hp : (names.zip (player_totals results))[i]
          = (names[i], (player_totals results)[i]) := List.getElem_zip (h := hz)
      rw [hp]
      exact beq_iff_eq.mpr hmax
    · have hp : (names.zip (player_totals results))[i]
          = (names[i], (player_totals results)[i]) := List.getElem_zip (h := hz)
      rw [hp]
  · intro n hn
    rw [winning_players] at hn
    rcases List.mem_map.mp hn with ⟨pair, hmem, hfst⟩
    rcases List.mem_filter.mp hmem with ⟨hzip, hpred⟩
    rcases List.mem_iff_getElem.mp hzip with ⟨i, hz, hget⟩
    have hi : i < names.length := by
      rw [List.length_zip] at hz
      exact (lt_min_iff.mp hz).1
    have hip : i < (player_totals results).length := by
      rw [List.length_zip] at hz
      exact (lt_min_iff.mp hz).2
    have hp : (names.zip (player_totals results))[i]
        = (names[i], (player_totals results)[i]) := List.getElem_zip (h := hz)
    rw [hget] at hp
    refine ⟨i, hi, hip, ?_, ?_⟩
    · rw [← hfst, hp]
    · have h2 : pair.2 = (player_totals results)[i] := by rw [hp]
      rw [← h2]
      exact beq_iff_eq.mp hpred
  · intro w hw
    simp only [play_the_game]
    rw [hw]
  · intro hlen1
    simp only [play_the_game]
    rcases hwp : winning_players names (player_totals results) with _ | ⟨w1, _ | ⟨w2, ws⟩⟩
    · rfl
    · refine absurd ?_ hlen1
      rw [hwp]
      rfl
    · rfl

theorem C9_winner_declaration_witness :
    play_the_game ["Ada", "Bo"] [[true], [false]]
      = .single "Ada" (max_points (player_totals [[true], [false]])) :=
  ((C9_winner_declaration ["Ada", "Bo"] [[true], [false]]
    (by decide) (by decide)).2.2.2.2.1) "Ada" (by decide)

/-- C10: `compare_distance` is swap-symmetric in its last two arguments for
every reference point and every pair of locations that parse: swapping the
locations turns the verdict (First, dA, dB) into (Second, dB, dA) and back,
and a tie into a tie. Stated for an arbitrary geodesic function, so it holds
for the external library whatever its distances are. -/
theorem C10_compare_distance_swap (geo : ℚ × ℚ → ℚ × ℚ → ℚ)
    (ref A B : PyScalar × PyScalar) (a b : ℚ × ℚ)
    (hA : convert_lat_lon_to_float A = .ok (some a))
    (hB : convert_lat_lon_to_float B = .ok (some b)) :
    (∀ dA dB : ℚ,
      compare_distance geo ref A B = .ok (.decided 1 dA dB) ↔
        compare_distance geo ref B A = .ok (.decided 2 dB dA)) ∧
    (compare_distance geo ref A B = .ok .tie ↔
      compare_distance geo ref B A = .ok .tie) := by
  rcases hr : convert_lat_lon_to_float ref with er | pr
  · have h1 : compare_distance geo ref A B = .error er := by
      rw [compare_distance, hr]
    have h2 : compare_distance geo ref B A = .error er := by
      rw [compare_distance, hr]
    rw [h1, h2]
    constructor
    · intro dA dB
      constructor <;> intro he <;> exact Except.noConfusion he
    · constructor <;> intro he <;> exact Except.noConfusion he
  · have h1 : compare_distance geo ref A B
        = if geo (pointOf pr) a = geo (pointOf pr) b then .ok .tie
          else if geo (pointOf pr) a < geo (pointOf pr) b then
            .ok (.decided 1 (geo (pointOf pr) a) (geo (pointOf pr) b))
          else .ok (.decided 2 (geo (pointOf pr) a) (geo (pointOf pr) b)) := by
      rw [compare_distance, hr, hA, hB]
      rfl
    have h2 : compare_distance geo ref B A
        = if geo (pointOf pr) b = geo (pointOf pr) a then .ok .tie
          else if geo (pointOf pr) b < geo (pointOf pr) a then
            .ok (.decided 1 (geo (pointOf pr) b) (geo (pointOf pr) a))
          else .ok (.decided 2 (geo (pointOf pr) b) (geo (pointOf pr) a)) := by
      rw [compare_distance, hr, hB, hA]
      rfl
    rw [h1, h2]
    generalize geo (pointOf pr) a = da
    generalize geo (pointOf pr) b = db
    constructor
    · intro dA dB
      rcases lt_trichotomy da db with h | h | h
      · rw [if_neg (ne_of_lt h), if_pos h, if_neg (ne_of_gt h), if_neg (not_lt.mpr h.le)]
        constructor
        · intro he
          have he2 := Except.ok.inj he
          injection he2 with ht hd1 hd2
          subst hd1
          subst hd2
          rfl
        · intro he
          have he2 := Except.ok.inj he
          injection he2 with ht hd1 hd2
          subst hd1
          subst hd2
          rfl
      · rw [if_pos h, if_pos h.symm]
        constructor <;> intro he <;> exact DistResult.noConfusion (Except.ok.inj he)
      · rw [if_neg (ne_of_gt h), if_neg (not_lt.mpr h.le), if_neg (ne_of_lt h), if_pos h]
        constructor <;> intro he <;>
          · have he2 := Except.ok.inj he
            injection he2 with ht hd1 hd2
            exact absurd ht (by decide)
    · rcases lt_trichotomy da db with h | h | h
      · rw [if_neg (ne_of_lt h), if_pos h, if_neg (ne_of_gt h), if_neg (not_lt.mpr h.le)]
        constructor <;> intro he <;> exact DistResult.noConfusion (Except.ok.inj he)
      · rw [if_pos h, if_pos h.symm]
      · rw [if_neg (ne_of_gt h), if_neg (not_lt.mpr h.le), if_neg (ne_of_lt h), if_pos h]
        constructor <;> intro he <;> exact DistResult.noConfusion (Except.ok.inj he)

theorem C10_compare_distance_swap_witness :
    compare_distance geoModel (.str "0".toList, .str "0".toList)
      (.str "10".toList, .str "10".toList) (.str "0".toList, .str "10".toList)
      = .ok (.decided 2 200 100) :=
  ((C10_compare_distance_swap geoModel (.str "0".toList, .str "0".toList)
    (.str "0".toList, .str "10".toList) (.str "10".toList, .str "10".toList)
    (0, 10) (10, 10) (by decide) (by decide)).1 100 200).mp (by decide)

end Guessipedia
